import Mathlib

/-!
Shallow embedding of `failover.py`, a Lambda that swaps Route53 failover
PRIMARY/SECONDARY records based on CloudWatch alarm SNS events, together
with theorems settling the specification claims.

Modelling conventions:
* Environment configuration is an explicit `Config` record of strings.
* The CloudWatch query backend is a parameter `health : String → Except Unit (List Datapoint)`;
  `Except.error ()` models an exception raised by the API call.
* Health metric values are rationals; `0.5` is `(1 : Rat)/2`.
* Python's `needle in hay` substring test is `strIn`; Python's
  `s.split('.', 1)[1]` (which raises `IndexError` when there is no dot)
  is `splitDotTail`, returning `none` for the raising case.
* `sorted(datapoints, key=lambda d: d['Timestamp'])` is the stable
  `List.insertionSort` under `tsLe` (Mathlib's insertion sort is stable,
  matching CPython's stable `sorted`).
* The handler's observable effects (which region was queried, which
  publish flag was passed to `upsert_failover_records`) are reified in
  `Outcome`; an uncaught Python exception is `Except.error ()`.
-/

/-- Configuration drawn from the process environment (module top of `failover.py`). -/
structure Config where
  HOSTED_ZONE_ID : String
  RECORD_NAME : String
  PRIMARY_SET_ID : String
  SECONDARY_SET_ID : String
  PRIMARY_ALB_DNS : String
  PRIMARY_ALB_ZONE_ID : String
  SECONDARY_ALB_DNS : String
  SECONDARY_ALB_ZONE_ID : String
  PRIMARY_REGION_LABEL : String
  SECONDARY_REGION_LABEL : String
deriving DecidableEq, Repr

/-- AliasTarget dict of a Route53 change. -/
structure AliasTarget where
  hostedZoneId : String
  dnsName : String
  evaluateTargetHealth : Bool
deriving DecidableEq, Repr

/-- ResourceRecordSet dict of a Route53 change (`rtype` models the `'Type'` key). -/
structure ResourceRecordSet where
  name : String
  rtype : String
  setIdentifier : String
  failover : String
  ttl : Nat
  aliasTarget : AliasTarget
deriving DecidableEq, Repr

/-- One entry of the `Changes` list sent to `change_resource_record_sets`. -/
structure Change where
  action : String
  resourceRecordSet : ResourceRecordSet
deriving DecidableEq, Repr

/-- Embedding of `upsert_failover_records(primary_is_east)`: the change batch it
submits (the transport call itself is external; the batch is the full observable
payload). Translated line by line from `failover.py` lines 70-148. -/
def upsert_failover_records (cfg : Config) (primary_is_east : Bool) : List Change :=
  let primary_alias : AliasTarget :=
    if primary_is_east then
      ⟨cfg.PRIMARY_ALB_ZONE_ID, cfg.PRIMARY_ALB_DNS, false⟩
    else
      ⟨cfg.SECONDARY_ALB_ZONE_ID, cfg.SECONDARY_ALB_DNS, false⟩
  let secondary_alias : AliasTarget :=
    if primary_is_east then
      ⟨cfg.SECONDARY_ALB_ZONE_ID, cfg.SECONDARY_ALB_DNS, false⟩
    else
      ⟨cfg.PRIMARY_ALB_ZONE_ID, cfg.PRIMARY_ALB_DNS, false⟩
  let primary_set_id : String :=
    if primary_is_east then cfg.PRIMARY_SET_ID else cfg.SECONDARY_SET_ID
  let secondary_set_id : String :=
    if primary_is_east then cfg.SECONDARY_SET_ID else cfg.PRIMARY_SET_ID
  let primary_fail : String := "PRIMARY"
  let secondary_fail : String := "SECONDARY"
  [ ⟨"UPSERT", ⟨cfg.RECORD_NAME, "A", primary_set_id, primary_fail, 60, primary_alias⟩⟩,
    ⟨"UPSERT", ⟨cfg.RECORD_NAME, "A", secondary_set_id, secondary_fail, 60, secondary_alias⟩⟩ ]

/-- One CloudWatch datapoint: its `Timestamp` and its `'Average'` entry
(`.get('Average')` in the source may miss, hence `Option`). -/
structure Datapoint where
  timestamp : Int
  average : Option Rat
deriving DecidableEq, Repr

/-- Comparison key used by `sorted(datapoints, key=lambda d: d['Timestamp'])`. -/
abbrev tsLe (a b : Datapoint) : Prop := a.timestamp ≤ b.timestamp

instance : IsTotal Datapoint tsLe := ⟨fun a b => le_total a.timestamp b.timestamp⟩

instance : IsTrans Datapoint tsLe := ⟨fun _ _ _ h1 h2 => le_trans h1 h2⟩

/-- Embedding of `get_latest_region_health`: the backend response is either a
raised exception (`Except.error`) or a datapoint list; exceptions and the empty
list both become `none`; otherwise the `'Average'` of the datapoint with the
latest timestamp (last element of the stable ascending sort) is returned.
Translated from `failover.py` lines 47-68. -/
def get_latest_region_health (resp : Except Unit (List Datapoint)) : Option Rat :=
  match resp with
  | Except.error _ => none
  | Except.ok dps =>
    match dps with
    | [] => none
    | d :: ds =>
      match (List.insertionSort tsLe (d :: ds)).getLast? with
      | none => none
      | some latest => latest.average

/-- Leading-segment test: `matchesAt needle hay` holds when `needle` occurs at
the very start of `hay`. Helper for the substring test. -/
def matchesAt : List Char → List Char → Bool
  | [], _ => true
  | _ :: _, [] => false
  | a :: as, b :: bs => a = b && matchesAt as bs

/-- Substring containment on char lists, scanning every suffix of the haystack. -/
def hasSub (needle : List Char) : List Char → Bool
  | [] => needle.isEmpty
  | c :: t => matchesAt needle (c :: t) || hasSub needle t

/-- Python's `needle in hay` substring containment on strings. -/
def strIn (needle hay : String) : Bool := hasSub needle.data hay.data

/-- Python's `s.split('.', 1)[1]`: everything after the first `'.'`, or `none`
when there is no dot (in which case the source raises `IndexError`). -/
def splitDotTail : List Char → Option (List Char)
  | [] => none
  | c :: rest => if c = '.' then some rest else splitDotTail rest

/-- Embedding of `var_is_primary_alarm` (`failover.py` lines 211-217). The
unused `expected` string is still computed by the source, and its
`RECORD_NAME.split('.',1)[1]` subterm raises `IndexError` when `RECORD_NAME`
has no dot: that raising path is the `Except.error ()` branch. Otherwise the
result is Python's `bool(alarm_name and PRIMARY_REGION_LABEL in alarm_name)`. -/
def var_is_primary_alarm (cfg : Config) (alarm_name : Option String) : Except Unit Bool :=
  match splitDotTail cfg.RECORD_NAME.data with
  | none => Except.error ()
  | some _ =>
    match alarm_name with
    | none => Except.ok false
    | some s => Except.ok (if s = "" then false else strIn cfg.PRIMARY_REGION_LABEL s)

/-- Decoded CloudWatch alarm message: the `AlarmName` and `NewStateValue`
entries, each possibly missing (`msg.get` in the source). -/
structure AlarmMsg where
  alarmName : Option String
  newStateValue : Option String
deriving DecidableEq, Repr

/-- SNS wrapper dict of one record: its `'Message'` key, possibly missing. -/
structure SnsWrapper where
  message : Option String
deriving DecidableEq, Repr

/-- One entry of the `'Records'` list: its `'Sns'` key, possibly missing. -/
structure SnsRecord where
  sns : Option SnsWrapper
deriving DecidableEq, Repr

/-- Inbound event envelope: its `'Records'` key, possibly missing. -/
structure RawEvent where
  records : Option (List SnsRecord)
deriving DecidableEq, Repr

/-- Embedding of `parse_sns_event` (`failover.py` lines 150-162): every access
that would raise (`KeyError` on `'Records'`/`'Sns'`/`'Message'`, `IndexError`
on `[0]`, `json.loads` failure) is caught by the source's `except` and becomes
`none`. `decode` abstracts `json.loads` applied to the message string. -/
def parse_sns_event (decode : String → Option AlarmMsg) (event : RawEvent) : Option AlarmMsg :=
  match event.records with
  | none => none
  | some rs =>
    match rs.head? with
    | none => none
    | some r =>
      match r.sns with
      | none => none
      | some w =>
        match w.message with
        | none => none
        | some s => decode s

/-- Observable effect of one handler invocation: whether a health query
occurred (and for which region label), and whether `upsert_failover_records`
was called (and with which flag). -/
inductive Outcome where
  | noop : Outcome
  | queriedOnly : String → Outcome
  | queriedPublished : String → Bool → Outcome
deriving DecidableEq, Repr

/-- Embedding of `lambda_handler` (`failover.py` lines 164-209). The result is
`Except.error ()` when the invocation raises (only `var_is_primary_alarm` can),
otherwise the `Outcome` describing which external calls were made. -/
def lambda_handler (cfg : Config) (decode : String → Option AlarmMsg)
    (health : String → Except Unit (List Datapoint)) (event : RawEvent) :
    Except Unit Outcome :=
  match parse_sns_event decode event with
  | none => Except.ok Outcome.noop
  | some msg =>
    match var_is_primary_alarm cfg msg.alarmName with
    | Except.error e => Except.error e
    | Except.ok false => Except.ok Outcome.noop
    | Except.ok true =>
      if msg.newStateValue = some "ALARM" then
        match get_latest_region_health (health cfg.SECONDARY_REGION_LABEL) with
        | none => Except.ok (Outcome.queriedOnly cfg.SECONDARY_REGION_LABEL)
        | some h =>
          if h ≤ 1/2 then Except.ok (Outcome.queriedOnly cfg.SECONDARY_REGION_LABEL)
          else Except.ok (Outcome.queriedPublished cfg.SECONDARY_REGION_LABEL false)
      else if msg.newStateValue = some "OK" then
        match get_latest_region_health (health cfg.PRIMARY_REGION_LABEL) with
        | none => Except.ok (Outcome.queriedOnly cfg.PRIMARY_REGION_LABEL)
        | some h =>
          if h ≤ 1/2 then Except.ok (Outcome.queriedOnly cfg.PRIMARY_REGION_LABEL)
          else Except.ok (Outcome.queriedPublished cfg.PRIMARY_REGION_LABEL true)
      else Except.ok Outcome.noop

/-- Route53 hosted-zone state restricted to this record name and type: the
record set stored under each set identifier, if any. -/
def ZoneState : Type := String → Option ResourceRecordSet

/-- UPSERT semantics of one change: create-or-replace the record set stored
under the change's set identifier. -/
def applyChange (zone : ZoneState) (c : Change) : ZoneState :=
  fun sid =>
    if sid = c.resourceRecordSet.setIdentifier then some c.resourceRecordSet else zone sid

/-- Applying one change batch in order. -/
def applyChanges (zone : ZoneState) (cs : List Change) : ZoneState :=
  cs.foldl applyChange zone

/-! ### General lemmas about the embedded helpers -/

/-- splitDotTail finds nothing when the list has no dot (so `split('.',1)[1]` raises). -/
theorem splitDotTail_eq_none {l : List Char} (h : '.' ∉ l) : splitDotTail l = none := by
  induction l with
  | nil => rfl
  | cons c t ih =>
    have hc : ¬ c = '.' := fun hc => h (hc ▸ List.mem_cons_self c t)
    simp only [splitDotTail, if_neg hc]
    exact ih (fun ht => h (List.mem_cons_of_mem c ht))

/-- splitDotTail succeeds when the list contains a dot. -/
theorem splitDotTail_ne_none {l : List Char} (h : '.' ∈ l) : splitDotTail l ≠ none := by
  induction l with
  | nil => cases h
  | cons c t ih =>
    by_cases hc : c = '.'
    · simp [splitDotTail, hc]
    · have ht : '.' ∈ t := by
        rcases List.mem_cons.mp h with h1 | h1
        · exact absurd h1.symm hc
        · exact h1
      simpa [splitDotTail, hc] using ih ht

/-- getLast of a list sorted ascending by timestamp is timestamp-maximal. -/
theorem tsLe_getLast_of_sorted :
    ∀ (l : List Datapoint), List.Sorted tsLe l → ∀ (hne : l ≠ []),
      ∀ x ∈ l, tsLe x (l.getLast hne) := by
  intro l
  induction l with
  | nil => intro _ hne; exact absurd rfl hne
  | cons a t ih =>
    intro hs hne x hx
    cases t with
    | nil =>
      have hxa : x = a := by simpa using hx
      subst hxa
      simp [List.getLast]
    | cons b t2 =>
      have hne2 : b :: t2 ≠ [] := by simp
      have hlast : (a :: b :: t2).getLast hne = (b :: t2).getLast hne2 :=
        List.getLast_cons hne2
      rw [hlast]
      rcases List.mem_cons.mp hx with hxa | hxt
      · subst hxa
        exact (List.sorted_cons.mp hs).1 _ (List.getLast_mem hne2)
      · exact ih (List.sorted_cons.mp hs).2 hne2 x hxt

/-- Insertion sort of a nonempty list is nonempty. -/
theorem insertionSort_ne_nil {l : List Datapoint} (h : l ≠ []) :
    List.insertionSort tsLe l ≠ [] := by
  intro hnil
  exact h (List.eq_nil_of_length_eq_zero
    (by simpa [hnil] using (List.perm_insertionSort tsLe l).length_eq.symm))

/-! ### Concrete instances used by counterexamples and witnesses -/

/-- Example configuration with distinct set identifiers and endpoints. -/
def exCfg : Config where
  HOSTED_ZONE_ID := "Z"
  RECORD_NAME := "a.b"
  PRIMARY_SET_ID := "pri-id"
  SECONDARY_SET_ID := "sec-id"
  PRIMARY_ALB_DNS := "pri.alb"
  PRIMARY_ALB_ZONE_ID := "PZ"
  SECONDARY_ALB_DNS := "sec.alb"
  SECONDARY_ALB_ZONE_ID := "SZ"
  PRIMARY_REGION_LABEL := "east"
  SECONDARY_REGION_LABEL := "west"

/-! ### Claim theorems -/

/-- C1, counterexample: with the secondary designated PRIMARY
(`primary_is_east = false`), the entry tagged PRIMARY does NOT carry the
primary-role set identifier `PRIMARY_SET_ID` (it carries `SECONDARY_SET_ID`),
so the set identifiers do not stay fixed to the role slots. -/
theorem upsert_setid_not_role_fixed :
    ¬ ((upsert_failover_records exCfg false).map
         (fun c => (c.resourceRecordSet.failover, c.resourceRecordSet.setIdentifier))
       = [("PRIMARY", exCfg.PRIMARY_SET_ID), ("SECONDARY", exCfg.SECONDARY_SET_ID)]) := by
  decide

/-- C1, amended: when a publish designates the secondary region PRIMARY, each
set identifier stays bound to its region's endpoint and the role tags move:
the PRIMARY-role entry carries the secondary set identifier together with the
secondary endpoint, and the SECONDARY-role entry carries the primary set
identifier together with the primary endpoint. -/
theorem upsert_setid_tracks_endpoint (cfg : Config) :
    (upsert_failover_records cfg false).map
      (fun c => (c.resourceRecordSet.failover, c.resourceRecordSet.setIdentifier,
                 c.resourceRecordSet.aliasTarget.dnsName,
                 c.resourceRecordSet.aliasTarget.hostedZoneId))
    = [("PRIMARY", cfg.SECONDARY_SET_ID, cfg.SECONDARY_ALB_DNS, cfg.SECONDARY_ALB_ZONE_ID),
       ("SECONDARY", cfg.PRIMARY_SET_ID, cfg.PRIMARY_ALB_DNS, cfg.PRIMARY_ALB_ZONE_ID)] := rfl

/-- C9: every batch produced by `upsert_failover_records`, for either flag, is
exactly two UPSERT entries sharing the configured record name and type A,
the first tagged PRIMARY and the second SECONDARY, each with TTL 60 and alias
target health evaluation disabled. -/
theorem upsert_batch_shape (cfg : Config) (b : Bool) :
    ∃ c1 c2 : Change, upsert_failover_records cfg b = [c1, c2]
      ∧ c1.action = "UPSERT" ∧ c2.action = "UPSERT"
      ∧ c1.resourceRecordSet.name = cfg.RECORD_NAME
      ∧ c2.resourceRecordSet.name = cfg.RECORD_NAME
      ∧ c1.resourceRecordSet.rtype = "A" ∧ c2.resourceRecordSet.rtype = "A"
      ∧ c1.resourceRecordSet.failover = "PRIMARY"
      ∧ c2.resourceRecordSet.failover = "SECONDARY"
      ∧ c1.resourceRecordSet.ttl = 60 ∧ c2.resourceRecordSet.ttl = 60
      ∧ c1.resourceRecordSet.aliasTarget.evaluateTargetHealth = false
      ∧ c2.resourceRecordSet.aliasTarget.evaluateTargetHealth = false := by
  cases b <;>
    exact ⟨_, _, rfl, rfl, rfl, rfl, rfl, rfl, rfl, rfl, rfl, rfl, rfl, rfl, rfl⟩

/-- C10: publishing with flag true, then false, then true leaves the zone in
exactly the state of the initial publish alone — the round trip restores the
role-to-endpoint mapping, because each publish is a pure function of the flag
and the fixed configuration and the final batch overwrites both entries. -/
theorem upsert_roundtrip (cfg : Config) (zone : ZoneState) :
    applyChanges
      (applyChanges (applyChanges zone (upsert_failover_records cfg true))
        (upsert_failover_records cfg false))
      (upsert_failover_records cfg true)
    = applyChanges zone (upsert_failover_records cfg true) := by
  funext sid
  by_cases h2 : sid = cfg.SECONDARY_SET_ID <;> by_cases h1 : sid = cfg.PRIMARY_SET_ID <;>
    simp [applyChanges, applyChange, upsert_failover_records, h1, h2]

/-- C6: the Health Oracle returns absent (`none`) whenever the query raised
(`Except.error`, caught and converted — the function is total, so no failure
propagates) and whenever the query returned zero datapoints. -/
theorem health_absent_on_failure_or_empty :
    (∀ e : Unit, get_latest_region_health (Except.error e) = none)
    ∧ get_latest_region_health (Except.ok []) = none :=
  ⟨fun _ => rfl, rfl⟩

/-- C7: on a non-empty datapoint list the Health Oracle returns the `'Average'`
of a timestamp-maximal datapoint of the list; in particular, for two datapoints
with identical value and distinct timestamps it returns that shared value
(taken at the later timestamp). -/
theorem health_selects_latest_timestamp :
    (∀ dps : List Datapoint, dps ≠ [] →
       ∃ m, m ∈ dps ∧ (∀ x ∈ dps, x.timestamp ≤ m.timestamp) ∧
         get_latest_region_health (Except.ok dps) = m.average)
    ∧ (∀ (d1 d2 : Datapoint) (v : Rat), d1.average = some v → d2.average = some v →
         d1.timestamp < d2.timestamp →
         get_latest_region_health (Except.ok [d1, d2]) = some v) := by
  have hA : ∀ dps : List Datapoint, dps ≠ [] →
      ∃ m, m ∈ dps ∧ (∀ x ∈ dps, x.timestamp ≤ m.timestamp) ∧
        get_latest_region_health (Except.ok dps) = m.average := by
    intro dps hne
    cases dps with
    | nil => exact absurd rfl hne
    | cons d ds =>
      have hs : List.insertionSort tsLe (d :: ds) ≠ [] :=
        insertionSort_ne_nil (by simp)
      have hperm := List.perm_insertionSort tsLe (d :: ds)
      refine ⟨(List.insertionSort tsLe (d :: ds)).getLast hs,
        hperm.subset (List.getLast_mem hs), ?_, ?_⟩
      · intro x hx
        exact tsLe_getLast_of_sorted _ (List.sorted_insertionSort tsLe _) hs x
          (hperm.mem_iff.mpr hx)
      · simp only [get_latest_region_health]
        rw [List.getLast?_eq_getLast _ hs]
  refine ⟨hA, ?_⟩
  intro d1 d2 v h1 h2 _
  obtain ⟨m, hm, _, hval⟩ := hA [d1, d2] (by simp)
  rcases List.mem_cons.mp hm with hm1 | hm2
  · rw [hval, hm1, h1]
  · have hm2 : m = d2 := by simpa using hm2
    rw [hval, hm2, h2]

/-- Witness for C7 at a concrete two-sample list with equal values and
timestamps 0 < 1. -/
theorem health_selects_latest_timestamp_witness :
    get_latest_region_health (Except.ok [⟨0, some 1⟩, ⟨1, some 1⟩]) = some 1 :=
  health_selects_latest_timestamp.2 ⟨0, some 1⟩ ⟨1, some 1⟩ 1 rfl rfl (by decide)

/-- Example decoder whose message names the primary alarm in state ALARM. -/
def exDecodeAlarm : String → Option AlarmMsg := fun _ => some ⟨some "east-a", some "ALARM"⟩

/-- Example decoder whose message names the primary alarm in state OK. -/
def exDecodeOk : String → Option AlarmMsg := fun _ => some ⟨some "east-a", some "OK"⟩

/-- Example decoder whose alarm name does not mention the primary label. -/
def exDecodeOther : String → Option AlarmMsg := fun _ => some ⟨some "zzz", some "ALARM"⟩

/-- Example health backend: one datapoint of value 3/4 for any region. -/
def exHealthGood : String → Except Unit (List Datapoint) := fun _ => Except.ok [⟨0, some (3/4)⟩]

/-- Example well-formed inbound envelope. -/
def exEvent : RawEvent := ⟨some [⟨some ⟨some "m"⟩⟩]⟩

/-- C2: on the primary alarm in state ALARM, the publish designating the
secondary region PRIMARY (flag `false`) happens iff the secondary health
sample is present and strictly above 1/2; a present sample at or below 1/2,
or an absent sample, ends the invocation after the query with no publish. -/
theorem handler_alarm_secondary_gate (cfg : Config) (decode : String → Option AlarmMsg)
    (health : String → Except Unit (List Datapoint)) (event : RawEvent) (msg : AlarmMsg)
    (hmsg : parse_sns_event decode event = some msg)
    (hpri : var_is_primary_alarm cfg msg.alarmName = Except.ok true)
    (hstate : msg.newStateValue = some "ALARM") :
    (lambda_handler cfg decode health event
        = Except.ok (Outcome.queriedPublished cfg.SECONDARY_REGION_LABEL false)
      ↔ ∃ h : Rat, get_latest_region_health (health cfg.SECONDARY_REGION_LABEL) = some h
          ∧ 1/2 < h)
    ∧ (∀ hv : Rat, get_latest_region_health (health cfg.SECONDARY_REGION_LABEL) = some hv →
        hv ≤ 1/2 →
        lambda_handler cfg decode health event
          = Except.ok (Outcome.queriedOnly cfg.SECONDARY_REGION_LABEL))
    ∧ (get_latest_region_health (health cfg.SECONDARY_REGION_LABEL) = none →
        lambda_handler cfg decode health event
          = Except.ok (Outcome.queriedOnly cfg.SECONDARY_REGION_LABEL)) := by
  rcases hh : get_latest_region_health (health cfg.SECONDARY_REGION_LABEL) with _ | hv
  · refine ⟨?_, ?_, ?_⟩
    · simp [lambda_handler, hmsg, hpri, hstate, hh]
    · intro hv h1 _; cases h1
    · intro _; simp [lambda_handler, hmsg, hpri, hstate, hh]
  · by_cases hle : hv ≤ 1/2
    · refine ⟨?_, ?_, ?_⟩
      · simp [lambda_handler, hmsg, hpri, hstate, hh, hle]
      · intro hv' h1 hle'
        simp [lambda_handler, hmsg, hpri, hstate, hh, hle] <;> linarith
      · intro h1; cases h1
    · refine ⟨?_, ?_, ?_⟩
      · simp [lambda_handler, hmsg, hpri, hstate, hh, hle]
      · intro hv' h1 hle'
        cases h1
        exact absurd hle' hle
      · intro h1; cases h1

/-- Witness for C2: a complete concrete invocation (primary alarm, ALARM,
secondary health 3/4) that publishes with the secondary designated PRIMARY. -/
theorem handler_alarm_secondary_gate_witness :
    lambda_handler exCfg exDecodeAlarm exHealthGood exEvent
      = Except.ok (Outcome.queriedPublished "west" false) :=
  (handler_alarm_secondary_gate exCfg exDecodeAlarm exHealthGood exEvent
      ⟨some "east-a", some "ALARM"⟩ rfl rfl rfl).1.mpr ⟨3/4, rfl, by norm_num⟩

/-- C3: on the primary alarm in state OK, the primary region's health is
queried; an absent sample or one at or below 1/2 ends the invocation after the
query with no publish, and otherwise the publish designating the primary
region PRIMARY (flag `true`) occurs. -/
theorem handler_ok_primary_gate (cfg : Config) (decode : String → Option AlarmMsg)
    (health : String → Except Unit (List Datapoint)) (event : RawEvent) (msg : AlarmMsg)
    (hmsg : parse_sns_event decode event = some msg)
    (hpri : var_is_primary_alarm cfg msg.alarmName = Except.ok true)
    (hstate : msg.newStateValue = some "OK") :
    (lambda_handler cfg decode health event
        = Except.ok (Outcome.queriedPublished cfg.PRIMARY_REGION_LABEL true)
      ↔ ∃ h : Rat, get_latest_region_health (health cfg.PRIMARY_REGION_LABEL) = some h
          ∧ 1/2 < h)
    ∧ (∀ hv : Rat, get_latest_region_health (health cfg.PRIMARY_REGION_LABEL) = some hv →
        hv ≤ 1/2 →
        lambda_handler cfg decode health event
          = Except.ok (Outcome.queriedOnly cfg.PRIMARY_REGION_LABEL))
    ∧ (get_latest_region_health (health cfg.PRIMARY_REGION_LABEL) = none →
        lambda_handler cfg decode health event
          = Except.ok (Outcome.queriedOnly cfg.PRIMARY_REGION_LABEL)) := by
  rcases hh : get_latest_region_health (health cfg.PRIMARY_REGION_LABEL) with _ | hv
  · refine ⟨?_, ?_, ?_⟩
    · simp [lambda_handler, hmsg, hpri, hstate, hh]
    · intro hv h1 _; cases h1
    · intro _; simp [lambda_handler, hmsg, hpri, hstate, hh]
  · by_cases hle : hv ≤ 1/2
    · refine ⟨?_, ?_, ?_⟩
      · simp [lambda_handler, hmsg, hpri, hstate, hh, hle]
      · intro hv' h1 hle'
        simp [lambda_handler, hmsg, hpri, hstate, hh, hle] <;> linarith
      · intro h1; cases h1
    · refine ⟨?_, ?_, ?_⟩
      · simp [lambda_handler, hmsg, hpri, hstate, hh, hle]
      · intro hv' h1 hle'
        cases h1
        exact absurd hle' hle
      · intro h1; cases h1

/-- Witness for C3: a complete concrete invocation (primary alarm, OK, primary
health 3/4) that publishes with the primary designated PRIMARY. -/
theorem handler_ok_primary_gate_witness :
    lambda_handler exCfg exDecodeOk exHealthGood exEvent
      = Except.ok (Outcome.queriedPublished "east" true) :=
  (handler_ok_primary_gate exCfg exDecodeOk exHealthGood exEvent
      ⟨some "east-a", some "OK"⟩ rfl rfl rfl).1.mpr ⟨3/4, rfl, by norm_num⟩

/-- C4: with a dotted RECORD_NAME (the spec's FQDN precondition, under which
classification does not raise), any parsed event whose alarm name is missing,
empty, or lacks the primary region label as a substring ends as a no-op with
no health query and no publish; and for any nonempty alarm name the
classification result is exactly substring containment of the label. -/
theorem non_primary_alarm_noop (cfg : Config) (hdot : '.' ∈ cfg.RECORD_NAME.data) :
    (∀ (decode : String → Option AlarmMsg) (health : String → Except Unit (List Datapoint))
       (event : RawEvent) (msg : AlarmMsg),
       parse_sns_event decode event = some msg →
       (msg.alarmName = none ∨ msg.alarmName = some "" ∨
         (∃ s, msg.alarmName = some s ∧ strIn cfg.PRIMARY_REGION_LABEL s = false)) →
       lambda_handler cfg decode health event = Except.ok Outcome.noop)
    ∧ (∀ s : String, s ≠ "" →
       var_is_primary_alarm cfg (some s) = Except.ok (strIn cfg.PRIMARY_REGION_LABEL s)) := by
  obtain ⟨tl, htl⟩ : ∃ tl, splitDotTail cfg.RECORD_NAME.data = some tl := by
    cases h : splitDotTail cfg.RECORD_NAME.data with
    | none => exact absurd h (splitDotTail_ne_none hdot)
    | some tl => exact ⟨tl, rfl⟩
  constructor
  · intro decode health event msg hp hcase
    have hcls : var_is_primary_alarm cfg msg.alarmName = Except.ok false := by
      rcases hcase with h1 | h1 | ⟨s, hs, hfalse⟩
      · simp [var_is_primary_alarm, htl, h1]
      · simp [var_is_primary_alarm, htl, h1]
      · by_cases hse : s = "" <;> simp [var_is_primary_alarm, htl, hs, hse, hfalse]
    simp [lambda_handler, hp, hcls]
  · intro s hs
    simp [var_is_primary_alarm, htl, hs]

/-- Witness for C4: a concrete invocation whose alarm name "zzz" does not
contain the primary label "east" ends as a no-op. -/
theorem non_primary_alarm_noop_witness :
    lambda_handler exCfg exDecodeOther exHealthGood exEvent = Except.ok Outcome.noop :=
  (non_primary_alarm_noop exCfg (by decide)).1 exDecodeOther exHealthGood exEvent
    ⟨some "zzz", some "ALARM"⟩ rfl (Or.inr (Or.inr ⟨"zzz", rfl, by decide⟩))

/-- Example configuration whose RECORD_NAME has no dot. -/
def exCfgNoDot : Config := { exCfg with RECORD_NAME := "ab" }

/-- C5: with a RECORD_NAME containing no dot, `var_is_primary_alarm` raises
(`IndexError` while computing the unused expected-name string) for every alarm
name, so every parsed event makes the whole invocation raise and nothing can
be classified or acted on. -/
theorem no_dot_raises (cfg : Config) (hnd : '.' ∉ cfg.RECORD_NAME.data) :
    (∀ name : Option String, var_is_primary_alarm cfg name = Except.error ())
    ∧ (∀ (decode : String → Option AlarmMsg) (health : String → Except Unit (List Datapoint))
        (event : RawEvent) (msg : AlarmMsg),
        parse_sns_event decode event = some msg →
        lambda_handler cfg decode health event = Except.error ()) := by
  have h0 := splitDotTail_eq_none hnd
  constructor
  · intro name
    simp [var_is_primary_alarm, h0]
  · intro decode health event msg hp
    simp [lambda_handler, hp, var_is_primary_alarm, h0]

/-- Witness for C5: with RECORD_NAME "ab", classifying a concrete alarm name
raises. -/
theorem no_dot_raises_witness :
    var_is_primary_alarm exCfgNoDot (some "east-a") = Except.error () :=
  (no_dot_raises exCfgNoDot (by decide)).1 (some "east-a")

/-- C8: every decode failure of the envelope (missing `Records`, empty batch,
missing `Sns`, missing `Message`, undecodable message body) yields the `none`
sentinel from `parse_sns_event` without raising, and on that sentinel the
handler is a no-op making no health query and no publish call. -/
theorem parse_failure_noop (cfg : Config) (decode : String → Option AlarmMsg)
    (health : String → Except Unit (List Datapoint)) :
    (∀ event : RawEvent, parse_sns_event decode event = none →
       lambda_handler cfg decode health event = Except.ok Outcome.noop)
    ∧ parse_sns_event decode ⟨none⟩ = none
    ∧ parse_sns_event decode ⟨some []⟩ = none
    ∧ (∀ rest : List SnsRecord, parse_sns_event decode ⟨some (⟨none⟩ :: rest)⟩ = none)
    ∧ (∀ rest : List SnsRecord,
        parse_sns_event decode ⟨some (⟨some ⟨none⟩⟩ :: rest)⟩ = none)
    ∧ (∀ (s : String) (rest : List SnsRecord), decode s = none →
        parse_sns_event decode ⟨some (⟨some ⟨some s⟩⟩ :: rest)⟩ = none) := by
  refine ⟨?_, rfl, rfl, fun rest => rfl, fun rest => rfl, fun s rest hd => ?_⟩
  · intro event hp
    simp [lambda_handler, hp]
  · simp [parse_sns_event, hd]

/-- Witness for C8: a concrete envelope with no `Records` key makes the
handler a no-op. -/
theorem parse_failure_noop_witness :
    lambda_handler exCfg exDecodeAlarm exHealthGood ⟨none⟩ = Except.ok Outcome.noop :=
  (parse_failure_noop exCfg exDecodeAlarm exHealthGood).1 ⟨none⟩ rfl
